import Mathlib

/-!
A shallow embedding of `src/main.py`, a FastAPI + PostgreSQL todo service.

The database table `todos (id SERIAL PRIMARY KEY, title TEXT NOT NULL,
done BOOLEAN NOT NULL DEFAULT FALSE)` is modelled as a list of rows in
insertion order together with the value of the `SERIAL` id sequence.
Each request handler of `src/main.py` becomes a pure function from the
store (and the request data) to a result and the next store; the
`HTTPException`s the handlers raise become the error side of `Except`.
-/

namespace LightsailFastapi

/-- A row of the `todos` table; also the shape of the `TodoOut` response
model `(id, title, done)` of `src/main.py`. -/
structure Todo where
  id : Nat
  title : String
  done : Bool
  deriving DecidableEq, Repr

/-- The database state: the rows of the `todos` table in insertion order,
and the next value of the `SERIAL` id sequence. -/
structure Store where
  nextId : Nat
  todos : List Todo
  deriving DecidableEq, Repr

/-- `fastapi.HTTPException` as raised by the handlers: a status code and a
detail message. -/
structure HTTPException where
  status : Nat
  detail : String
  deriving DecidableEq, Repr

/-- The whitespace predicate of Python `str.strip()` (restricted to the
ASCII whitespace characters: space and the control characters 9 to 13). -/
def pyWs (c : Char) : Bool :=
  c.toNat == 32 || (decide (9 ≤ c.toNat) && decide (c.toNat ≤ 13))

/-- Python `str.strip()` on the underlying character list: drop whitespace
from the front, then from the back. -/
def pyStripList (l : List Char) : List Char :=
  ((l.dropWhile pyWs).reverse.dropWhile pyWs).reverse

/-- Python `title.strip()` as used at `src/main.py` lines 127 and 133. -/
def pyStrip (s : String) : String :=
  String.mk (pyStripList s.data)

/-- The response of `GET /health` (`src/main.py` `health`): a JSON object
with a `service` field and a `database` field. -/
structure HealthOut where
  service : String
  database : String
  deriving DecidableEq, Repr

/-- `GET /health` (`src/main.py` lines 91 to 102): runs `SELECT 1` on a
fresh connection; a `psycopg2.Error` is caught and reported in the
`database` field, while the `service` field is `"ok"` either way. The
outcome of the connectivity check (which depends on the external database)
is the argument: `Except.error e` models a raised `psycopg2.Error` whose
string form is `e`. -/
def health (dbCheck : Except String Unit) : HealthOut :=
  match dbCheck with
  | Except.ok _ => { service := "ok", database := "ok" }
  | Except.error e => { service := "ok", database := "error: " ++ e }

/-- `GET /todos` (`src/main.py` lines 111 to 121):
`SELECT id, title, done FROM todos ORDER BY id DESC`. -/
def list_todos (s : Store) : List Todo :=
  s.todos.mergeSort fun a b => decide (b.id ≤ a.id)

/-- `POST /todos` (`src/main.py` lines 124 to 139): reject a title that is
empty after stripping with a 400; otherwise
`INSERT INTO todos(title, done) VALUES (%s, FALSE) RETURNING id, title, done`
with the stripped title, the row taking the next `SERIAL` id. -/
def create_todo (s : Store) (title : String) : Except HTTPException (Store × Todo) :=
  if pyStrip title = "" then
    Except.error { status := 400, detail := "título é obrigatório" }
  else
    let row : Todo := { id := s.nextId, title := pyStrip title, done := false }
    Except.ok ({ nextId := s.nextId + 1, todos := s.todos ++ [row] }, row)

/-- The row transformer of `UPDATE todos SET done = NOT done WHERE id = %s`:
a row matching the id gets its `done` negated, any other row is unchanged. -/
def tgl (todo_id : Nat) (u : Todo) : Todo :=
  if u.id == todo_id then { u with done := !u.done } else u

/-- `PATCH /todos/{todo_id}` (`src/main.py` lines 142 to 155):
`UPDATE todos SET done = NOT done WHERE id = %s RETURNING id, title, done`,
then `fetchone()` on the returned (matching, already-updated) rows;
404 when no row matched. -/
def toggle_done (s : Store) (todo_id : Nat) : Except HTTPException (Store × Todo) :=
  match ((s.todos.map (tgl todo_id)).filter fun u => u.id == todo_id).head? with
  | none => Except.error { status := 404, detail := "não encontrado" }
  | some row => Except.ok ({ s with todos := s.todos.map (tgl todo_id) }, row)

/-- `DELETE /todos/{todo_id}` (`src/main.py` lines 158 to 166):
`DELETE FROM todos WHERE id = %s`; 404 when `cur.rowcount` is 0. -/
def delete_todo (s : Store) (todo_id : Nat) : Except HTTPException Store :=
  if (s.todos.countP fun u => u.id == todo_id) == 0 then
    Except.error { status := 404, detail := "não encontrado" }
  else
    Except.ok { s with todos := s.todos.filter fun u => !(u.id == todo_id) }

/-- The HTTP view of `POST /todos`: status code (201 on success via the
route decorator, `e.status_code` on `HTTPException`), optional body, and
the store after the request (unchanged when the handler raises, since the
transaction is rolled back / never started). -/
def runCreate (s : Store) (title : String) : (Nat × Option Todo) × Store :=
  match create_todo s title with
  | Except.ok (s', row) => ((201, some row), s')
  | Except.error e => ((e.status, none), s)

/-- The HTTP view of `PATCH /todos/{todo_id}` (200 on success). -/
def runToggle (s : Store) (todo_id : Nat) : (Nat × Option Todo) × Store :=
  match toggle_done s todo_id with
  | Except.ok (s', row) => ((200, some row), s')
  | Except.error e => ((e.status, none), s)

/-- The HTTP view of `DELETE /todos/{todo_id}` (204 with no body on
success, via the route decorator and the handler returning `None`). -/
def runDelete (s : Store) (todo_id : Nat) : (Nat × Option Todo) × Store :=
  match delete_todo s todo_id with
  | Except.ok s' => ((204, none), s')
  | Except.error e => ((e.status, none), s)

/-- Well-formedness of a store, maintained by PostgreSQL: `id` is a
`PRIMARY KEY` (pairwise distinct) and `SERIAL` (below the sequence
counter). -/
def Store.WF (s : Store) : Prop :=
  s.todos.Pairwise (fun a b => a.id ≠ b.id) ∧ ∀ t ∈ s.todos, t.id < s.nextId

instance (s : Store) : Decidable s.WF := by
  unfold Store.WF
  infer_instance

/-! ### Helper lemmas about `pyStrip` -/

lemma head?_dropWhile_false {α : Type} {p : α → Bool} {l : List α} {c : α}
    (h : (l.dropWhile p).head? = some c) : p c = false := by
  have := List.head?_dropWhile_not p l
  rw [h] at this
  exact this

lemma dropWhile_eq_strip_append (l : List Char) :
    l.dropWhile pyWs = pyStripList l ++ ((l.dropWhile pyWs).reverse.takeWhile pyWs).reverse := by
  unfold pyStripList
  conv_lhs => rw [← List.reverse_reverse (l.dropWhile pyWs)]
  conv_lhs => rw [← List.takeWhile_append_dropWhile pyWs (l.dropWhile pyWs).reverse]
  rw [List.reverse_append]

/-- Stripping removes a fully-whitespace front part and a fully-whitespace
back part, leaving the middle (so interior whitespace is preserved). -/
lemma pyStripList_decomp (l : List Char) :
    ∃ pre suf, (∀ c ∈ pre, pyWs c = true) ∧ (∀ c ∈ suf, pyWs c = true) ∧
      l = pre ++ pyStripList l ++ suf := by
  refine ⟨l.takeWhile pyWs, ((l.dropWhile pyWs).reverse.takeWhile pyWs).reverse, ?_, ?_, ?_⟩
  · intro c hc
    exact List.all_eq_true.mp List.all_takeWhile c hc
  · intro c hc
    rw [List.mem_reverse] at hc
    exact List.all_eq_true.mp List.all_takeWhile c hc
  · conv_lhs => rw [← List.takeWhile_append_dropWhile pyWs l]
    rw [List.append_assoc]
    congr 1
    exact dropWhile_eq_strip_append l

/-- A stripped list does not start with a whitespace character. -/
lemma pyStripList_head {l : List Char} {c : Char}
    (h : (pyStripList l).head? = some c) : pyWs c = false := by
  rcases hs : pyStripList l with _ | ⟨a, rest⟩
  · rw [hs] at h
    simp at h
  · rw [hs] at h
    simp only [List.head?_cons, Option.some.injEq] at h
    have hd := dropWhile_eq_strip_append l
    rw [hs] at hd
    have hh : (l.dropWhile pyWs).head? = some a := by
      rw [hd]
      rfl
    exact h ▸ head?_dropWhile_false hh

/-- A stripped list does not end with a whitespace character. -/
lemma pyStripList_getLast {l : List Char} {c : Char}
    (h : (pyStripList l).getLast? = some c) : pyWs c = false := by
  unfold pyStripList at h
  rw [List.getLast?_reverse] at h
  exact head?_dropWhile_false h

/-! ### Helper lemmas about the store operations -/

@[simp] lemma tgl_id (todo_id : Nat) (u : Todo) : (tgl todo_id u).id = u.id := by
  unfold tgl
  split <;> rfl

@[simp] lemma tgl_title (todo_id : Nat) (u : Todo) : (tgl todo_id u).title = u.title := by
  unfold tgl
  split <;> rfl

lemma tgl_of_ne {todo_id : Nat} {u : Todo} (h : u.id ≠ todo_id) : tgl todo_id u = u := by
  unfold tgl
  rw [if_neg (by simpa using h)]

lemma tgl_of_eq {todo_id : Nat} {u : Todo} (h : u.id = todo_id) :
    tgl todo_id u = { u with done := !u.done } := by
  unfold tgl
  rw [if_pos (by simpa using h)]

/-- With pairwise-distinct ids, the rows matching the id of a member `t`
are exactly `[t]`. -/
lemma filter_id_eq_singleton : ∀ {l : List Todo} {t : Todo},
    t ∈ l → l.Pairwise (fun a b => a.id ≠ b.id) →
    l.filter (fun u => u.id == t.id) = [t] := by
  intro l
  induction l with
  | nil =>
    intro t ht _
    cases ht
  | cons a as ih =>
    intro t ht hp
    rw [List.pairwise_cons] at hp
    rw [List.filter_cons]
    rcases List.mem_cons.mp ht with rfl | hmem
    · rw [if_pos (by simp)]
      have hnil : as.filter (fun u => u.id == t.id) = [] := by
        rw [List.filter_eq_nil_iff]
        intro u hu
        simp only [beq_iff_eq]
        exact fun he => (hp.1 u hu) he.symm
      rw [hnil]
    · have hne : a.id ≠ t.id := hp.1 t hmem
      rw [if_neg (by simpa using hne)]
      exact ih hmem hp.2

/-- Members of a well-formed store with distinct identities have distinct
ids. -/
lemma id_inj {s : Store} (hwf : s.WF) {u t : Todo}
    (hu : u ∈ s.todos) (ht : t ∈ s.todos) (hne : u ≠ t) : u.id ≠ t.id :=
  hwf.1.forall (fun _ _ h => h.symm) hu ht hne

/-- What a successful toggle computes: every matching row (exactly one, by
well-formedness) has `done` negated, and that row is returned. -/
lemma toggle_done_eq {s : Store} {t : Todo} (hwf : s.WF) (ht : t ∈ s.todos) :
    toggle_done s t.id =
      Except.ok ({ s with todos := s.todos.map (tgl t.id) }, { t with done := !t.done }) := by
  unfold toggle_done
  have hfil : ((s.todos.map (tgl t.id)).filter fun u => u.id == t.id) =
      (s.todos.filter fun u => u.id == t.id).map (tgl t.id) := by
    rw [List.filter_map]
    congr 1
    apply List.filter_congr
    intro u _
    simp [Function.comp]
  rw [hfil, filter_id_eq_singleton ht hwf.1]
  simp only [List.map_cons, List.map_nil, List.head?_cons]
  rw [tgl_of_eq rfl]

/-- Toggling preserves well-formedness. -/
lemma WF_toggle {s : Store} (hwf : s.WF) (todo_id : Nat) :
    Store.WF { s with todos := s.todos.map (tgl todo_id) } := by
  constructor
  · rw [List.pairwise_map]
    exact hwf.1.imp (by simp)
  · intro u hu
    rcases List.mem_map.mp hu with ⟨v, hv, rfl⟩
    simpa using hwf.2 v hv

/-- When no stored row has the requested id, both toggle and delete raise
the 404 `HTTPException`. -/
lemma toggle_delete_absent {s : Store} {todo_id : Nat}
    (h : ∀ u ∈ s.todos, u.id ≠ todo_id) :
    toggle_done s todo_id = Except.error { status := 404, detail := "não encontrado" } ∧
    delete_todo s todo_id = Except.error { status := 404, detail := "não encontrado" } := by
  constructor
  · unfold toggle_done
    have hfil : ((s.todos.map (tgl todo_id)).filter fun u => u.id == todo_id) = [] := by
      rw [List.filter_eq_nil_iff]
      intro u hu
      rcases List.mem_map.mp hu with ⟨v, hv, rfl⟩
      simpa using h v hv
    rw [hfil]
    rfl
  · unfold delete_todo
    rw [if_pos]
    rw [beq_iff_eq, List.countP_eq_zero]
    intro u hu
    simpa using h u hu

/-! ### The claims -/

/-- Claim C1: for every create request whose title is non-empty after
trimming whitespace, the Create operation succeeds with status 201 and
returns the created record, whose identifier is system-assigned (the next
sequence value, distinct from every stored id) and whose done field is
false. -/
theorem create_nonempty_title_201 (s : Store) (title : String)
    (hwf : s.WF) (h : pyStrip title ≠ "") :
    ∃ row : Todo,
      runCreate s title =
        ((201, some row), { nextId := s.nextId + 1, todos := s.todos ++ [row] }) ∧
      row.id = s.nextId ∧ row.done = false ∧
      ∀ u ∈ s.todos, u.id ≠ row.id := by
  refine ⟨{ id := s.nextId, title := pyStrip title, done := false }, ?_, rfl, rfl, ?_⟩
  · unfold runCreate create_todo
    rw [if_neg h]
  · intro u hu
    exact Nat.ne_of_lt (hwf.2 u hu)

/-- Witness for C1 at a concrete store and title. -/
theorem create_nonempty_title_201_witness :
    (Store.mk 0 []).WF ∧ pyStrip " hi " ≠ "" ∧
    (∃ row : Todo,
      runCreate (Store.mk 0 []) " hi " =
        ((201, some row),
          { nextId := (Store.mk 0 []).nextId + 1, todos := (Store.mk 0 []).todos ++ [row] }) ∧
      row.id = (Store.mk 0 []).nextId ∧ row.done = false ∧
      ∀ u ∈ (Store.mk 0 []).todos, u.id ≠ row.id) :=
  ⟨by decide, by decide,
    create_nonempty_title_201 (Store.mk 0 []) " hi " (by decide) (by decide)⟩

/-- Claim C2: for every create request whose title is empty or whitespace
only, the Create operation fails with status 400 and the stored todo set
is unchanged. -/
theorem create_blank_title_400 (s : Store) (title : String)
    (h : pyStrip title = "") :
    runCreate s title = ((400, none), s) := by
  unfold runCreate create_todo
  rw [if_pos h]

/-- Witness for C2 at a concrete store and whitespace-only title. -/
theorem create_blank_title_400_witness :
    pyStrip " \t " = "" ∧
    runCreate (Store.mk 2 [Todo.mk 0 "a" true]) " \t " =
      ((400, none), Store.mk 2 [Todo.mk 0 "a" true]) :=
  ⟨by decide, create_blank_title_400 (Store.mk 2 [Todo.mk 0 "a" true]) " \t " (by decide)⟩

/-- Claim C5: for every identifier absent from the todo store, both Toggle
and Delete fail with status 404 and leave the stored todo set unchanged. -/
theorem toggle_delete_missing_404 (s : Store) (todo_id : Nat)
    (h : ∀ u ∈ s.todos, u.id ≠ todo_id) :
    runToggle s todo_id = ((404, none), s) ∧
    runDelete s todo_id = ((404, none), s) := by
  obtain ⟨h1, h2⟩ := toggle_delete_absent h
  constructor
  · unfold runToggle
    rw [h1]
  · unfold runDelete
    rw [h2]

/-- Witness for C5 at a concrete store and absent id. -/
theorem toggle_delete_missing_404_witness :
    (∀ u ∈ (Store.mk 1 [Todo.mk 0 "a" false]).todos, u.id ≠ 5) ∧
    (runToggle (Store.mk 1 [Todo.mk 0 "a" false]) 5 =
        ((404, none), Store.mk 1 [Todo.mk 0 "a" false]) ∧
      runDelete (Store.mk 1 [Todo.mk 0 "a" false]) 5 =
        ((404, none), Store.mk 1 [Todo.mk 0 "a" false])) :=
  ⟨by decide, toggle_delete_missing_404 (Store.mk 1 [Todo.mk 0 "a" false]) 5 (by decide)⟩

/-- Claim C7: the health check reports the service and the database status
as two independent fields: on a failed connectivity check the service
field is still ok and the database field carries the error; on a
successful check both fields are ok. -/
theorem health_independent_fields :
    (∀ e : String,
      health (Except.error e) = { service := "ok", database := "error: " ++ e }) ∧
    health (Except.ok ()) = { service := "ok", database := "ok" } :=
  ⟨fun _ => rfl, rfl⟩

/-- Claim C3: for every (well-formed) state of the todo store, the List
operation returns all stored todos — a permutation of the store, with no
filtering or paging — in strictly descending order of identifier. -/
theorem list_todos_all_desc (s : Store) (hwf : s.WF) :
    (list_todos s).Perm s.todos ∧
    (list_todos s).Pairwise fun a b => b.id < a.id := by
  have hperm : (list_todos s).Perm s.todos := List.mergeSort_perm s.todos _
  refine ⟨hperm, ?_⟩
  have hsorted : (list_todos s).Pairwise fun a b => decide (b.id ≤ a.id) = true := by
    unfold list_todos
    exact List.sorted_mergeSort
      (fun a b c h1 h2 => by
        simp only [decide_eq_true_eq] at h1 h2 ⊢
        exact Nat.le_trans h2 h1)
      (fun a b => by
        simp only [Bool.or_eq_true, decide_eq_true_eq]
        exact Nat.le_total b.id a.id)
      s.todos
  have hne : (list_todos s).Pairwise fun a b => a.id ≠ b.id :=
    (List.Perm.pairwise_iff (fun h => h.symm) hperm).mpr hwf.1
  refine (hsorted.and hne).imp ?_
  rintro a b ⟨hle, hne2⟩
  simp only [decide_eq_true_eq] at hle
  exact Nat.lt_of_le_of_ne hle fun he => hne2 he.symm

/-- Witness for C3 at a concrete well-formed store. -/
theorem list_todos_all_desc_witness :
    (Store.mk 3 [Todo.mk 0 "a" false, Todo.mk 2 "b" true, Todo.mk 1 "c" false]).WF ∧
    ((list_todos
        (Store.mk 3 [Todo.mk 0 "a" false, Todo.mk 2 "b" true, Todo.mk 1 "c" false])).Perm
      (Store.mk 3 [Todo.mk 0 "a" false, Todo.mk 2 "b" true, Todo.mk 1 "c" false]).todos ∧
    (list_todos
        (Store.mk 3 [Todo.mk 0 "a" false, Todo.mk 2 "b" true, Todo.mk 1 "c" false])).Pairwise
      fun a b => b.id < a.id) :=
  ⟨by decide,
    list_todos_all_desc
      (Store.mk 3 [Todo.mk 0 "a" false, Todo.mk 2 "b" true, Todo.mk 1 "c" false]) (by decide)⟩

/-- Claim C4: toggling an existing id returns the updated record (same id
and title, done negated), and toggling the same id again restores the
original record. -/
theorem toggle_flips_done (s : Store) (t : Todo) (hwf : s.WF) (ht : t ∈ s.todos) :
    ∃ s', toggle_done s t.id = Except.ok (s', { t with done := !t.done }) ∧
      ∃ s'', toggle_done s' t.id = Except.ok (s'', t) := by
  refine ⟨{ s with todos := s.todos.map (tgl t.id) }, toggle_done_eq hwf ht, ?_⟩
  have hwf' : Store.WF { s with todos := s.todos.map (tgl t.id) } := WF_toggle hwf t.id
  have hmem : ({ t with done := !t.done } : Todo) ∈
      ({ s with todos := s.todos.map (tgl t.id) } : Store).todos :=
    List.mem_map.mpr ⟨t, ht, tgl_of_eq rfl⟩
  have h2 := toggle_done_eq hwf' hmem
  have hrow : ({ { t with done := !t.done } with done := !(!t.done) } : Todo) = t := by
    simp [Bool.not_not]
  rw [hrow] at h2
  exact ⟨_, h2⟩

/-- Witness for C4 at a concrete store and member. -/
theorem toggle_flips_done_witness :
    (Store.mk 2 [Todo.mk 0 "a" false, Todo.mk 1 "b" true]).WF ∧
    Todo.mk 1 "b" true ∈ (Store.mk 2 [Todo.mk 0 "a" false, Todo.mk 1 "b" true]).todos ∧
    (∃ s', toggle_done (Store.mk 2 [Todo.mk 0 "a" false, Todo.mk 1 "b" true])
          (Todo.mk 1 "b" true).id =
        Except.ok (s', { Todo.mk 1 "b" true with done := !(Todo.mk 1 "b" true).done }) ∧
      ∃ s'', toggle_done s' (Todo.mk 1 "b" true).id = Except.ok (s'', Todo.mk 1 "b" true)) :=
  ⟨by decide, by decide,
    toggle_flips_done (Store.mk 2 [Todo.mk 0 "a" false, Todo.mk 1 "b" true])
      (Todo.mk 1 "b" true) (by decide) (by decide)⟩

/-- Claim C6: deleting an existing id succeeds with status 204 and no
body, removes exactly that record (every remaining record was stored and
has a different id; every other stored record remains), and a subsequent
Toggle or Delete on the same id answers 404. -/
theorem delete_removes_and_404_after (s : Store) (t : Todo)
    (hwf : s.WF) (ht : t ∈ s.todos) :
    ∃ s', runDelete s t.id = ((204, none), s') ∧
      t ∉ s'.todos ∧
      (∀ u ∈ s'.todos, u ∈ s.todos ∧ u.id ≠ t.id) ∧
      (∀ u ∈ s.todos, u ≠ t → u ∈ s'.todos) ∧
      runToggle s' t.id = ((404, none), s') ∧
      runDelete s' t.id = ((404, none), s') := by
  refine ⟨{ s with todos := s.todos.filter fun u => !(u.id == t.id) }, ?_, ?_, ?_, ?_, ?_, ?_⟩
  · unfold runDelete delete_todo
    rw [if_neg]
    simp only [beq_iff_eq]
    have hpos : 0 < s.todos.countP fun u => u.id == t.id :=
      List.countP_pos_iff.mpr ⟨t, ht, by simp⟩
    omega
  · intro hmem
    have := (List.mem_filter.mp hmem).2
    simp at this
  · intro u hu
    have h2 := List.mem_filter.mp hu
    refine ⟨h2.1, ?_⟩
    simpa using h2.2
  · intro u hu hne
    refine List.mem_filter.mpr ⟨hu, ?_⟩
    simpa using id_inj hwf hu ht hne
  · have habs : ∀ u ∈ (s.todos.filter fun u => !(u.id == t.id)), u.id ≠ t.id := by
      intro u hu
      simpa using (List.mem_filter.mp hu).2
    unfold runToggle
    rw [(toggle_delete_absent habs).1]
  · have habs : ∀ u ∈ (s.todos.filter fun u => !(u.id == t.id)), u.id ≠ t.id := by
      intro u hu
      simpa using (List.mem_filter.mp hu).2
    unfold runDelete
    rw [(toggle_delete_absent habs).2]

/-- Witness for C6 at a concrete store and member. -/
theorem delete_removes_and_404_after_witness :
    (Store.mk 2 [Todo.mk 0 "a" false, Todo.mk 1 "b" true]).WF ∧
    Todo.mk 0 "a" false ∈ (Store.mk 2 [Todo.mk 0 "a" false, Todo.mk 1 "b" true]).todos ∧
    (∃ s', runDelete (Store.mk 2 [Todo.mk 0 "a" false, Todo.mk 1 "b" true])
          (Todo.mk 0 "a" false).id = ((204, none), s') ∧
      Todo.mk 0 "a" false ∉ s'.todos ∧
      (∀ u ∈ s'.todos,
        u ∈ (Store.mk 2 [Todo.mk 0 "a" false, Todo.mk 1 "b" true]).todos ∧
          u.id ≠ (Todo.mk 0 "a" false).id) ∧
      (∀ u ∈ (Store.mk 2 [Todo.mk 0 "a" false, Todo.mk 1 "b" true]).todos,
        u ≠ Todo.mk 0 "a" false → u ∈ s'.todos) ∧
      runToggle s' (Todo.mk 0 "a" false).id = ((404, none), s') ∧
      runDelete s' (Todo.mk 0 "a" false).id = ((404, none), s')) :=
  ⟨by decide, by decide,
    delete_removes_and_404_after (Store.mk 2 [Todo.mk 0 "a" false, Todo.mk 1 "b" true])
      (Todo.mk 0 "a" false) (by decide) (by decide)⟩

/-- Claim C8: a Toggle on a stored record changes only that record's done
flag: the returned row keeps the id and title, the store keeps its length
and, position by position, every row keeps its id and title, and every row
whose id is not the toggled one is completely unchanged. -/
theorem toggle_frame (s : Store) (t : Todo) (hwf : s.WF) (ht : t ∈ s.todos) :
    ∃ s' row, toggle_done s t.id = Except.ok (s', row) ∧
      row.id = t.id ∧ row.title = t.title ∧ row.done = !t.done ∧
      s'.nextId = s.nextId ∧ s'.todos.length = s.todos.length ∧
      ∀ i : Nat, ∀ h1 : i < s.todos.length, ∀ h2 : i < s'.todos.length,
        (s'.todos.get ⟨i, h2⟩).id = (s.todos.get ⟨i, h1⟩).id ∧
        (s'.todos.get ⟨i, h2⟩).title = (s.todos.get ⟨i, h1⟩).title ∧
        ((s.todos.get ⟨i, h1⟩).id ≠ t.id → s'.todos.get ⟨i, h2⟩ = s.todos.get ⟨i, h1⟩) := by
  refine ⟨_, _, toggle_done_eq hwf ht, rfl, rfl, rfl, rfl, by simp, ?_⟩
  intro i h1 h2
  have hget : ({ s with todos := s.todos.map (tgl t.id) } : Store).todos.get ⟨i, h2⟩
      = tgl t.id (s.todos.get ⟨i, h1⟩) := by
    simp [List.get_eq_getElem]
  rw [hget]
  exact ⟨tgl_id _ _, tgl_title _ _, fun hne => tgl_of_ne hne⟩

/-- Witness for C8 at a concrete store and member. -/
theorem toggle_frame_witness :
    (Store.mk 3 [Todo.mk 0 "a" false, Todo.mk 1 "b" true, Todo.mk 2 "c" false]).WF ∧
    Todo.mk 1 "b" true ∈
      (Store.mk 3 [Todo.mk 0 "a" false, Todo.mk 1 "b" true, Todo.mk 2 "c" false]).todos ∧
    (∃ s' row,
      toggle_done (Store.mk 3 [Todo.mk 0 "a" false, Todo.mk 1 "b" true, Todo.mk 2 "c" false])
          (Todo.mk 1 "b" true).id = Except.ok (s', row) ∧
      row.id = (Todo.mk 1 "b" true).id ∧ row.title = (Todo.mk 1 "b" true).title ∧
      row.done = !(Todo.mk 1 "b" true).done ∧
      s'.nextId =
        (Store.mk 3 [Todo.mk 0 "a" false, Todo.mk 1 "b" true, Todo.mk 2 "c" false]).nextId ∧
      s'.todos.length =
        (Store.mk 3
          [Todo.mk 0 "a" false, Todo.mk 1 "b" true, Todo.mk 2 "c" false]).todos.length ∧
      ∀ i : Nat,
        ∀ h1 : i <
          (Store.mk 3
            [Todo.mk 0 "a" false, Todo.mk 1 "b" true, Todo.mk 2 "c" false]).todos.length,
        ∀ h2 : i < s'.todos.length,
        (s'.todos.get ⟨i, h2⟩).id =
          ((Store.mk 3
            [Todo.mk 0 "a" false, Todo.mk 1 "b" true,
              Todo.mk 2 "c" false]).todos.get ⟨i, h1⟩).id ∧
        (s'.todos.get ⟨i, h2⟩).title =
          ((Store.mk 3
            [Todo.mk 0 "a" false, Todo.mk 1 "b" true,
              Todo.mk 2 "c" false]).todos.get ⟨i, h1⟩).title ∧
        (((Store.mk 3
            [Todo.mk 0 "a" false, Todo.mk 1 "b" true,
              Todo.mk 2 "c" false]).todos.get ⟨i, h1⟩).id ≠ (Todo.mk 1 "b" true).id →
          s'.todos.get ⟨i, h2⟩ =
            (Store.mk 3
              [Todo.mk 0 "a" false, Todo.mk 1 "b" true,
                Todo.mk 2 "c" false]).todos.get ⟨i, h1⟩)) :=
  ⟨by decide, by decide,
    toggle_frame (Store.mk 3 [Todo.mk 0 "a" false, Todo.mk 1 "b" true, Todo.mk 2 "c" false])
      (Todo.mk 1 "b" true) (by decide) (by decide)⟩

/-- Claim C10: a successful Create stores (and echoes) the title with
leading and trailing whitespace removed: the stored title is the stripped
input, the input is the stored title surrounded by whitespace-only front
and back parts (so interior whitespace is preserved), and the stored title
neither starts nor ends with whitespace. -/
theorem create_title_stripped (s : Store) (title : String)
    (h : pyStrip title ≠ "") :
    ∃ s' row, create_todo s title = Except.ok (s', row) ∧
      row.title = pyStrip title ∧
      s'.todos = s.todos ++ [row] ∧
      (∃ pre suf, (∀ c ∈ pre, pyWs c = true) ∧ (∀ c ∈ suf, pyWs c = true) ∧
        title.data = pre ++ row.title.data ++ suf) ∧
      (∀ c : Char, row.title.data.head? = some c → pyWs c = false) ∧
      (∀ c : Char, row.title.data.getLast? = some c → pyWs c = false) := by
  have hrow : create_todo s title =
      Except.ok (Store.mk (s.nextId + 1) (s.todos ++ [Todo.mk s.nextId (pyStrip title) false]),
        Todo.mk s.nextId (pyStrip title) false) := by
    unfold create_todo
    rw [if_neg h]
  refine ⟨_, _, hrow, rfl, rfl, ?_, ?_, ?_⟩
  · exact pyStripList_decomp title.data
  · intro c hc
    exact pyStripList_head hc
  · intro c hc
    exact pyStripList_getLast hc

/-- Witness for C10 at a concrete title with leading, trailing and
interior whitespace. -/
theorem create_title_stripped_witness :
    pyStrip "  a b \t" ≠ "" ∧
    (∃ s' row, create_todo (Store.mk 0 []) "  a b \t" = Except.ok (s', row) ∧
      row.title = pyStrip "  a b \t" ∧
      s'.todos = (Store.mk 0 []).todos ++ [row] ∧
      (∃ pre suf, (∀ c ∈ pre, pyWs c = true) ∧ (∀ c ∈ suf, pyWs c = true) ∧
        ("  a b \t" : String).data = pre ++ row.title.data ++ suf) ∧
      (∀ c : Char, row.title.data.head? = some c → pyWs c = false) ∧
      (∀ c : Char, row.title.data.getLast? = some c → pyWs c = false)) :=
  ⟨by decide, create_title_stripped (Store.mk 0 []) "  a b \t" (by decide)⟩

end LightsailFastapi
